import Mathlib

/-!
Shallow embedding of the q-cli-botgroup backend socket service
(src/backend/src/config/index.js: `setupSocketHandlers`,
`processModelsInSequence`, `processModel`) together with the configuration
module, and theorems settling the frozen claims about it.

The session store (`../models/Session`) and the streaming generator
(`./bedrockService`) are external collaborators whose code is not under
src/: the store is modelled from the spec (§4.1) and the generator is a
parameter constrained only by its interface (§4.4).
-/

namespace QCliBotgroup

/-- Embedding of the JavaScript expression `s.trim()`: drop whitespace
characters from both ends of the string. -/
def jsTrim (s : String) : String :=
  ⟨((s.data.dropWhile Char.isWhitespace).reverse.dropWhile Char.isWhitespace).reverse⟩

/-- Embedding of the JavaScript expression `s.startsWith(p)`. -/
def jsStartsWith (s p : String) : Bool :=
  p.data.isPrefixOf s.data

/-- Message roles occurring in the service: `'user'` and `'assistant'`. -/
inductive Role where
  | user
  | assistant
deriving DecidableEq

/-- A transcript entry: `{role, modelId?, content}` as appended by
`Session.addMessage` calls in the service. -/
structure Message where
  role : Role
  modelId : Option String
  content : String
deriving DecidableEq

/-- Generation parameters of one model (config/index.js `parameters`):
`temperature` (a float, embedded as a rational) and `maxTokens`. -/
structure GenParams where
  temperature : Rat
  maxTokens : Nat
deriving DecidableEq

/-- One entry of `config.models`: a backend model reference plus
generation parameters. -/
structure ModelConfig where
  modelId : String
  parameters : GenParams
deriving DecidableEq

/-- The `models` section of config/index.js: its two fixed entries
`deepseek` and `nova`, each with environment-dependent contents. -/
structure Config where
  deepseek : ModelConfig
  nova : ModelConfig
deriving DecidableEq

/-- One element of the hardcoded `models` array built inside
`processModelsInSequence`. -/
structure ModelDesc where
  id : String
  config : ModelConfig
  order : Nat
deriving DecidableEq

/-- The hardcoded model list of `processModelsInSequence` (lines 93-104):
deepseek with order 1, then nova with order 2; only the `config` field
comes from configuration. -/
def modelsList (cfg : Config) : List ModelDesc :=
  [⟨"deepseek", cfg.deepseek, 1⟩, ⟨"nova", cfg.nova, 2⟩]

/-- Outbound socket events emitted by the service, in emission order:
`error`, `receive_message`, `model_complete`, `all_responses_complete`. -/
inductive Event where
  | errorEv (code : String) (message : String)
  | receiveMessage (modelId : String) (message : String) (isComplete : Bool)
      (sessionId : String) (order : Nat)
  | modelComplete (modelId : String) (sessionId : String) (order : Nat)
  | allResponsesComplete (sessionId : String)
deriving DecidableEq

/-- The in-memory session store: transcripts keyed by session id. -/
abbrev Store := List (String × List Message)

namespace Session

/-- Modelled from the spec: `Session.getById` of the missing
src/backend/src/models/Session.js, per §4.1 "getById(sessionId) → Session |
not-found". Looks the session up by id. -/
def getById (sessionId : String) (store : Store) : Option (List Message) :=
  (store.find? (fun p => p.1 == sessionId)).map (fun p => p.2)

/-- Modelled from the spec: `Session.addMessage` of the missing Session
module, per §4.1 "appends to the session's message sequence". -/
def addMessage (sessionId : String) (msg : Message) (store : Store) : Store :=
  store.map (fun p => if p.1 == sessionId then (p.1, p.2 ++ [msg]) else p)

/-- Modelled from the spec: `Session.getHistory` of the missing Session
module, per §4.1 "returns a snapshot usable as initial transcript
context" (value semantics: the working list is a copy, the sequencer
appends to it itself). -/
def getHistory (sessionId : String) (store : Store) : List Message :=
  (getById sessionId store).getD []

end Session

/-- Outcome of one `generateStreamingResponse` call (external collaborator,
§4.4): either it invokes the chunk callback on each element of `chunks` and
returns the aggregated text `response`, or it throws after emitting
`emitted`, with `message` the thrown error's `.message` (none when
unavailable). -/
inductive GenOutcome where
  | ok (chunks : List String) (response : String)
  | err (emitted : List String) (message : Option String)
deriving DecidableEq

/-- The streaming generator as a deterministic function of the arguments
`processModel` passes it: backend model reference, transcript, parameters. -/
abbrev Generator := String → List Message → GenParams → GenOutcome

/-- Instrumentation record for one generator invocation: the backend model
reference and the transcript passed to it. -/
structure GenCall where
  modelId : String
  history : List Message
deriving DecidableEq

/-- Result of one per-model step (`processModel`): events emitted in order,
the store after the step, the resolved response text, and the generator
invocations made. -/
structure StepResult where
  events : List Event
  store : Store
  response : String
  calls : List GenCall
deriving DecidableEq

/-- The diagnostic placeholder of processModel line 170. -/
def diagMessage (id : String) : String :=
  "No response was generated from " ++ id ++
    ". This could be due to an issue with the model configuration or the input provided."

/-- The error text of processModel line 204:
`Error: ${error.message || 'An unknown error occurred'}` (JavaScript `||`
also replaces an empty message). -/
def errorText (message : Option String) : String :=
  "Error: " ++
    (match message with
      | some m => if m == "" then "An unknown error occurred" else m
      | none => "An unknown error occurred")

/-- Embedding of `processModel` (lines 142-226). On generator success the
stream chunks are forwarded as `receive_message` events; a blank aggregated
text (line 167's inner check, `completeResponse.trim() === ''`, which also
covers the falsy empty string) is replaced by the diagnostic placeholder
emitted as one extra chunk; then the terminal completion chunk is emitted
and the assistant message is appended to the store. On generator failure
the formatted error text is emitted as a chunk, the terminal chunk follows,
and the promise still resolves — but no store append happens on this path.
Line 167's outer `startsWith('Error:')` disjunct only triggers a console
warning and is not state-relevant. -/
def processModel (gen : Generator) (store : Store) (sessionId : String)
    (model : ModelDesc) (history : List Message) : StepResult :=
  match gen model.config.modelId history model.config.parameters with
  | GenOutcome.ok chunks response =>
      let streamEvents := chunks.map
        (fun c => Event.receiveMessage model.id c false sessionId model.order)
      let isBlank := jsTrim response == ""
      let completeResponse := if isBlank then diagMessage model.id else response
      let extraEvents :=
        if isBlank then
          [Event.receiveMessage model.id (diagMessage model.id) false sessionId model.order]
        else []
      ⟨streamEvents ++ extraEvents ++
          [Event.receiveMessage model.id ("") true sessionId model.order],
       Session.addMessage sessionId ⟨Role.assistant, some model.id, completeResponse⟩ store,
       completeResponse,
       [⟨model.config.modelId, history⟩]⟩
  | GenOutcome.err emitted message =>
      let streamEvents := emitted.map
        (fun c => Event.receiveMessage model.id c false sessionId model.order)
      ⟨streamEvents ++
          [Event.receiveMessage model.id (errorText message) false sessionId model.order,
           Event.receiveMessage model.id ("") true sessionId model.order],
       store,
       errorText message,
       [⟨model.config.modelId, history⟩]⟩

/-- Outcome of one iteration of the `for` loop of
`processModelsInSequence`: either the per-model step resolves with a
`StepResult`, or the iteration raises an unrecovered defect past the
step's own error containment. -/
inductive StepOutcome where
  | ok (r : StepResult)
  | defect
deriving DecidableEq

/-- A per-model step as seen by the sequencing loop. -/
abbrev StepFun := Store → String → ModelDesc → List Message → StepOutcome

/-- Result of a sequencing run: events in emission order, final store,
final in-memory working transcript, and all generator invocations. -/
structure SeqResult where
  events : List Event
  store : Store
  history : List Message
  calls : List GenCall
deriving DecidableEq

/-- Embedding of the `for` loop of `processModelsInSequence`
(lines 107-126) over a remaining descriptor list, composed with the
exception route: a defect raised by an iteration propagates through the
rethrowing catch (lines 128-131) to the `send_message` handler's catch
(lines 73-79), which emits the generic `model_error` event. Each
successful step appends the assistant message to the working transcript
and emits `model_complete`; after the last descriptor
`all_responses_complete` is emitted. -/
def processModelsFrom (step : StepFun) (sessionId : String) :
    List ModelDesc → Store → List Message → SeqResult
  | [], store, history =>
      ⟨[Event.allResponsesComplete sessionId], store, history, []⟩
  | model :: rest, store, history =>
      match step store sessionId model history with
      | StepOutcome.ok r =>
          let history1 := history ++ [⟨Role.assistant, some model.id, r.response⟩]
          let tail := processModelsFrom step sessionId rest r.store history1
          ⟨r.events ++ Event.modelComplete model.id sessionId model.order :: tail.events,
           tail.store, tail.history, r.calls ++ tail.calls⟩
      | StepOutcome.defect =>
          ⟨[Event.errorEv ("model_error") ("Error processing your message")],
           store, history, []⟩

/-- The per-model step actually installed by the service: `processModel`,
whose promise always resolves (both its branches call `resolve`). -/
def stepOf (gen : Generator) : StepFun :=
  fun store sessionId model history =>
    StepOutcome.ok (processModel gen store sessionId model history)

/-- Embedding of `processModelsInSequence` (lines 90-132): the loop over
the hardcoded model list. -/
def processModelsInSequence (gen : Generator) (cfg : Config) (store : Store)
    (sessionId : String) (history : List Message) : SeqResult :=
  processModelsFrom (stepOf gen) sessionId (modelsList cfg) store history

/-- Embedding of the `send_message` handler of `setupSocketHandlers`
(lines 47-80): validate the session (unknown id: emit one
`error{invalid_session}` event and stop), append the user message to the
store, snapshot the history, then run the model sequence. -/
def handleSendMessage (gen : Generator) (cfg : Config) (store : Store)
    (message : String) (sessionId : String) : SeqResult :=
  match Session.getById sessionId store with
  | none =>
      ⟨[Event.errorEv ("invalid_session") ("Invalid session ID")], store, [], []⟩
  | some _ =>
      let store1 := Session.addMessage sessionId ⟨Role.user, none, message⟩ store
      let history := Session.getHistory sessionId store1
      processModelsInSequence gen cfg store1 sessionId history

/-- Recognizer used to state chunk ordering: is the event a
`receive_message` for the given model id? -/
def isChunkFor (mid : String) : Event → Bool
  | Event.receiveMessage m _ _ _ _ => m == mid
  | _ => false

/-- Did the generator call return (rather than throw)? -/
def genSucceeded : GenOutcome → Bool
  | GenOutcome.ok _ _ => true
  | GenOutcome.err _ _ => false

/-- The configuration built from the documented environment defaults. -/
def cfgDefault : Config :=
  ⟨⟨"us.deepseek.r1-v1:0", ⟨7 / 10, 1000⟩⟩,
   ⟨"us.amazon.nova-lite-v1:0", ⟨7 / 10, 1000⟩⟩⟩

/-- The deepseek descriptor of the hardcoded model list under the default
configuration. -/
def mdlDeepseek : ModelDesc := ⟨"deepseek", cfgDefault.deepseek, 1⟩

/-- The nova descriptor of the hardcoded model list under the default
configuration. -/
def mdlNova : ModelDesc := ⟨"nova", cfgDefault.nova, 2⟩

/-- A store holding one session with an empty transcript. -/
def store0 : Store := [("s1", [])]

/-- A generator whose every call throws with no usable message. -/
def genAllErr : Generator := fun _ _ _ => GenOutcome.err [] none

/-- A generator whose every call returns the empty aggregated text with no
chunks. -/
def genAllEmpty : Generator := fun _ _ _ => GenOutcome.ok [] ""

/-- A generator whose every call returns a text carrying the reserved
error prefix. -/
def genErrPrefixed : Generator :=
  fun _ _ _ => GenOutcome.ok [("Error: boom")] ("Error: boom")

/-- The two-model scenario generator of the spec's end-to-end test: model A
returns "hello", model B returns "hi, " followed by the last assistant
content of the transcript it receives. -/
def genScenario : Generator := fun mid history _ =>
  if mid == ("us.deepseek.r1-v1:0") then GenOutcome.ok [("hello")] ("hello")
  else
    let lastContent :=
      (((history.filter (fun m => m.role == Role.assistant)).getLast?).map
        (fun m => m.content)).getD ("")
    GenOutcome.ok [("hi, ") ++ lastContent] (("hi, ") ++ lastContent)

/-- The first step of the scenario run. -/
def s1ex : StepResult :=
  processModel genScenario
    (Session.addMessage ("s1") ⟨Role.user, none, ("hi")⟩ store0) ("s1")
    mdlDeepseek [⟨Role.user, none, ("hi")⟩]

/-- The second step of the scenario run. -/
def s2ex : StepResult :=
  processModel genScenario s1ex.store ("s1") mdlNova
    ([⟨Role.user, none, ("hi")⟩] ++
      [⟨Role.assistant, some ("deepseek"), s1ex.response⟩])

/-- A per-model step that always raises an unrecovered defect. -/
def defectStep : StepFun := fun _ _ _ _ => StepOutcome.defect

/-- The first step of the all-throwing run. -/
def f1ex : StepResult :=
  processModel genAllErr
    (Session.addMessage ("s1") ⟨Role.user, none, ("hi")⟩ store0) ("s1")
    mdlDeepseek [⟨Role.user, none, ("hi")⟩]

/-- The second step of the all-throwing run. -/
def f2ex : StepResult :=
  processModel genAllErr f1ex.store ("s1") mdlNova
    ([⟨Role.user, none, ("hi")⟩] ++
      [⟨Role.assistant, some ("deepseek"), f1ex.response⟩])

end QCliBotgroup

namespace QCliBotgroup

/-- Appending a message to a session rewrites its lookup result. -/
theorem getById_addMessage (sid : String) (m : Message) (store : Store) :
    Session.getById sid (Session.addMessage sid m store)
      = (Session.getById sid store).map (fun l => l ++ [m]) := by
  induction store with
  | nil => rfl
  | cons p rest ih =>
      unfold Session.addMessage Session.getById at ih ⊢
      simp only [List.map_cons]
      by_cases h : (p.1 == sid) = true
      · rw [if_pos h]
        rw [List.find?_cons_of_pos (p := fun q : String × List Message => q.1 == sid)
            (a := (p.1, p.2 ++ [m])) _ h,
          List.find?_cons_of_pos (p := fun q : String × List Message => q.1 == sid) _ h]
        rfl
      · rw [if_neg h]
        rw [List.find?_cons_of_neg (p := fun q : String × List Message => q.1 == sid) _ h,
          List.find?_cons_of_neg (p := fun q : String × List Message => q.1 == sid) _ h]
        exact ih

/-- History after appending to a known session. -/
theorem getHistory_addMessage (sid : String) (m : Message) (store : Store)
    (l : List Message) (h : Session.getById sid store = some l) :
    Session.getHistory sid (Session.addMessage sid m store) = l ++ [m] := by
  simp [Session.getHistory, getById_addMessage, h]

/-- The per-model step makes exactly one generator invocation, passing the
configured backend reference and the transcript it was given. -/
theorem processModel_calls (gen : Generator) (store : Store) (sid : String)
    (model : ModelDesc) (history : List Message) :
    (processModel gen store sid model history).calls
      = [⟨model.config.modelId, history⟩] := by
  cases hg : gen model.config.modelId history model.config.parameters with
  | ok chunks response => simp [processModel, hg]
  | err emitted message => simp [processModel, hg]

/-- Unfolding of the per-model step on a returning generator call. -/
theorem processModel_ok (gen : Generator) (store : Store) (sid : String)
    (model : ModelDesc) (history : List Message) (chunks : List String)
    (response : String)
    (hg : gen model.config.modelId history model.config.parameters
        = GenOutcome.ok chunks response) :
    processModel gen store sid model history
      = ⟨(chunks.map (fun c =>
            Event.receiveMessage model.id c false sid model.order))
          ++ (if jsTrim response == "" then
                [Event.receiveMessage model.id (diagMessage model.id) false sid model.order]
              else [])
          ++ [Event.receiveMessage model.id ("") true sid model.order],
         Session.addMessage sid
           ⟨Role.assistant, some model.id,
            if jsTrim response == "" then diagMessage model.id else response⟩ store,
         (if jsTrim response == "" then diagMessage model.id else response),
         [⟨model.config.modelId, history⟩]⟩ := by
  simp only [processModel, hg]

/-- Unfolding of the per-model step on a throwing generator call. -/
theorem processModel_err (gen : Generator) (store : Store) (sid : String)
    (model : ModelDesc) (history : List Message) (emitted : List String)
    (message : Option String)
    (hg : gen model.config.modelId history model.config.parameters
        = GenOutcome.err emitted message) :
    processModel gen store sid model history
      = ⟨(emitted.map (fun c =>
            Event.receiveMessage model.id c false sid model.order))
          ++ [Event.receiveMessage model.id (errorText message) false sid model.order,
              Event.receiveMessage model.id ("") true sid model.order],
         store, errorText message, [⟨model.config.modelId, history⟩]⟩ := by
  simp only [processModel, hg]

/-- One successful loop iteration of the sequencer, unfolded. -/
theorem processModelsFrom_step (gen : Generator) (sid : String)
    (model : ModelDesc) (rest : List ModelDesc) (store : Store)
    (history : List Message) (r : StepResult)
    (hr : r = processModel gen store sid model history) (tail : SeqResult)
    (ht : tail = processModelsFrom (stepOf gen) sid rest r.store
        (history ++ [⟨Role.assistant, some model.id, r.response⟩])) :
    processModelsFrom (stepOf gen) sid (model :: rest) store history
      = ⟨r.events ++ Event.modelComplete model.id sid model.order :: tail.events,
         tail.store, tail.history, r.calls ++ tail.calls⟩ := by
  subst hr ht
  simp [processModelsFrom, stepOf]

/-- C2: sending with an unknown session id produces exactly one
`error{code: invalid_session}` event, zero transcript mutation, and zero
generator invocations, and no other event for that inbound message. -/
theorem unknown_session_rejected (gen : Generator) (cfg : Config)
    (store : Store) (message sessionId : String)
    (h : Session.getById sessionId store = none) :
    handleSendMessage gen cfg store message sessionId
      = ⟨[Event.errorEv ("invalid_session") ("Invalid session ID")],
         store, [], []⟩ := by
  simp [handleSendMessage, h]

/-- Concrete instance of `unknown_session_rejected`. -/
theorem unknown_session_rejected_witness :
    Session.getById ("nope") store0 = none ∧
      handleSendMessage genAllErr cfgDefault store0 ("hi") ("nope")
        = ⟨[Event.errorEv ("invalid_session") ("Invalid session ID")],
           store0, [], []⟩ :=
  ⟨rfl, unknown_session_rejected genAllErr cfgDefault store0 ("hi") ("nope") rfl⟩

/-- C9: an unrecovered defect raised by a loop iteration aborts the run:
the channel gets the single generic `model_error` event and nothing else,
the remaining descriptors are never consulted (the result does not depend
on them), and no `model_complete` or `all_responses_complete` follows. -/
theorem step_defect_aborts (step : StepFun) (sessionId : String)
    (model : ModelDesc) (rest rest2 : List ModelDesc) (store : Store)
    (history : List Message)
    (h : step store sessionId model history = StepOutcome.defect) :
    processModelsFrom step sessionId (model :: rest) store history
      = ⟨[Event.errorEv ("model_error") ("Error processing your message")],
         store, history, []⟩
    ∧ processModelsFrom step sessionId (model :: rest) store history
      = processModelsFrom step sessionId (model :: rest2) store history := by
  constructor <;> simp [processModelsFrom, h]

/-- Concrete instance of `step_defect_aborts`. -/
theorem step_defect_aborts_witness :
    defectStep store0 ("s1") mdlDeepseek [] = StepOutcome.defect ∧
      processModelsFrom defectStep ("s1") (mdlDeepseek :: [mdlNova]) store0 []
        = ⟨[Event.errorEv ("model_error") ("Error processing your message")],
           store0, [], []⟩ :=
  ⟨rfl,
   (step_defect_aborts defectStep ("s1") mdlDeepseek [mdlNova] [] store0 [] rfl).1⟩

/-- C10: the sequencer's model list is hardcoded — always exactly two
models, deepseek at order 1 followed by nova at order 2, whatever the
configuration — and a send on a valid session invokes exactly these two
backends in this order. -/
theorem models_hardcoded :
    (∀ cfg : Config,
      (modelsList cfg).map (fun m => (m.id, m.order))
        = [(("deepseek"), 1), (("nova"), 2)])
    ∧ ∀ (gen : Generator) (cfg : Config) (store : Store) (msgs : List Message)
        (message sessionId : String),
        Session.getById sessionId store = some msgs →
        (handleSendMessage gen cfg store message sessionId).calls.map
            (fun c => c.modelId)
          = [cfg.deepseek.modelId, cfg.nova.modelId] := by
  constructor
  · intro cfg
    rfl
  · intro gen cfg store msgs message sessionId h
    simp [handleSendMessage, h, processModelsInSequence, modelsList,
      processModelsFrom, stepOf, processModel_calls]

/-- Concrete instance of `models_hardcoded`. -/
theorem models_hardcoded_witness :
    Session.getById ("s1") store0 = some [] ∧
      (handleSendMessage genAllErr cfgDefault store0 ("hi") ("s1")).calls.map
          (fun c => c.modelId)
        = [cfgDefault.deepseek.modelId, cfgDefault.nova.modelId] :=
  ⟨rfl, models_hardcoded.2 genAllErr cfgDefault store0 [] ("hi") ("s1") rfl⟩


/-- A string carrying the reserved error marker is not blank: the `trim`
check of line 169 cannot fire on it. -/
theorem error_marked_not_blank (s : String)
    (h : jsStartsWith s ("Error:") = true) : (jsTrim s == "") = false := by
  apply beq_eq_false_iff_ne.mpr
  intro heq
  simp only [jsStartsWith] at h
  obtain ⟨t, ht⟩ := List.isPrefixOf_iff_prefix.mp h
  have hE : s.data = 'E' :: (("rror:").data ++ t) := by
    rw [← ht]
    rfl
  have hdata : ((s.data.dropWhile Char.isWhitespace).reverse.dropWhile
      Char.isWhitespace).reverse = [] := congrArg String.data heq
  rw [List.reverse_eq_nil_iff, List.dropWhile_eq_nil_iff] at hdata
  have hdrop : s.data.dropWhile Char.isWhitespace = s.data := by
    rw [hE]
    exact List.dropWhile_cons_of_neg (by decide)
  have hmem : ('E' : Char) ∈ (s.data.dropWhile Char.isWhitespace).reverse := by
    rw [hdrop, List.mem_reverse, hE]
    exact List.mem_cons_self _ _
  exact absurd (hdata _ hmem) (by decide)

/-- The per-model step on a returning generator call with a blank
aggregated text: the diagnostic placeholder is substituted and emitted as
one extra chunk. -/
theorem processModel_ok_blank (gen : Generator) (store : Store) (sid : String)
    (model : ModelDesc) (history : List Message) (chunks : List String)
    (response : String)
    (hg : gen model.config.modelId history model.config.parameters
        = GenOutcome.ok chunks response)
    (hb : jsTrim response = "") :
    processModel gen store sid model history
      = ⟨(chunks.map (fun c =>
            Event.receiveMessage model.id c false sid model.order))
          ++ [Event.receiveMessage model.id (diagMessage model.id) false sid model.order,
              Event.receiveMessage model.id ("") true sid model.order],
         Session.addMessage sid
           ⟨Role.assistant, some model.id, diagMessage model.id⟩ store,
         diagMessage model.id,
         [⟨model.config.modelId, history⟩]⟩ := by
  have hb2 : (jsTrim response == "") = true := by
    rw [hb]
    decide
  rw [processModel_ok gen store sid model history chunks response hg]
  simp [hb2]

/-- The per-model step on a returning generator call with a non-blank
aggregated text: the text is kept unchanged and no extra chunk is
emitted. -/
theorem processModel_ok_nonblank (gen : Generator) (store : Store)
    (sid : String) (model : ModelDesc) (history : List Message)
    (chunks : List String) (response : String)
    (hg : gen model.config.modelId history model.config.parameters
        = GenOutcome.ok chunks response)
    (hb : (jsTrim response == "") = false) :
    processModel gen store sid model history
      = ⟨(chunks.map (fun c =>
            Event.receiveMessage model.id c false sid model.order))
          ++ [Event.receiveMessage model.id ("") true sid model.order],
         Session.addMessage sid ⟨Role.assistant, some model.id, response⟩ store,
         response,
         [⟨model.config.modelId, history⟩]⟩ := by
  rw [processModel_ok gen store sid model history chunks response hg]
  simp [hb]


/-- C3: when the generator call throws, the step still resolves — with the
text `Error: <reason>` (the thrown message, or the generic default when it
is missing or empty) — that text is emitted as a chunk event with
completion flag false, the terminal empty completion chunk follows, and
the sequence proceeds to the next model descriptor. -/
theorem generator_throw_recovered (gen : Generator) (store : Store)
    (sessionId : String) (model : ModelDesc) (rest : List ModelDesc)
    (history : List Message) (emitted : List String) (message : Option String)
    (hg : gen model.config.modelId history model.config.parameters
        = GenOutcome.err emitted message)
    (r : StepResult) (hr : r = processModel gen store sessionId model history)
    (tail : SeqResult)
    (ht : tail = processModelsFrom (stepOf gen) sessionId rest store
        (history ++ [⟨Role.assistant, some model.id, errorText message⟩])) :
    stepOf gen store sessionId model history = StepOutcome.ok r
    ∧ r.response = errorText message
    ∧ r.events
        = (emitted.map (fun c =>
            Event.receiveMessage model.id c false sessionId model.order))
          ++ [Event.receiveMessage model.id (errorText message) false sessionId model.order,
              Event.receiveMessage model.id ("") true sessionId model.order]
    ∧ r.store = store
    ∧ processModelsFrom (stepOf gen) sessionId (model :: rest) store history
        = ⟨r.events ++ Event.modelComplete model.id sessionId model.order :: tail.events,
           tail.store, tail.history, r.calls ++ tail.calls⟩ := by
  have he := processModel_err gen store sessionId model history emitted message hg
  have h2 : r.response = errorText message := by rw [hr, he]
  have h4 : r.store = store := by rw [hr, he]
  refine ⟨?_, h2, ?_, h4, ?_⟩
  · rw [hr]
    rfl
  · rw [hr, he]
  · exact processModelsFrom_step gen sessionId model rest store history r hr tail
      (by rw [ht, h4, h2])

/-- Concrete instance of `generator_throw_recovered`. -/
theorem generator_throw_recovered_witness :
    genAllErr cfgDefault.deepseek.modelId [] cfgDefault.deepseek.parameters
        = GenOutcome.err [] none ∧
      (processModel genAllErr store0 ("s1") mdlDeepseek []).response
        = errorText none :=
  ⟨rfl,
   (generator_throw_recovered genAllErr store0 ("s1") mdlDeepseek [mdlNova] []
      [] none rfl (processModel genAllErr store0 ("s1") mdlDeepseek []) rfl
      (processModelsFrom (stepOf genAllErr) ("s1") [mdlNova] store0
        ([] ++ [⟨Role.assistant, some mdlDeepseek.id, errorText none⟩]))
      rfl).2.1⟩

/-- C5: when the generator returns an empty or whitespace-only aggregated
text, the step substitutes the fixed diagnostic message naming the model,
emits it as one extra chunk event with completion flag false, uses it as
the assistant content (also in the store append), still emits the terminal
completion chunk, and the sequence proceeds to the next model. -/
theorem empty_response_diagnostic (gen : Generator) (store : Store)
    (sessionId : String) (model : ModelDesc) (rest : List ModelDesc)
    (history : List Message) (chunks : List String) (response : String)
    (hg : gen model.config.modelId history model.config.parameters
        = GenOutcome.ok chunks response)
    (hb : jsTrim response = "")
    (r : StepResult) (hr : r = processModel gen store sessionId model history)
    (tail : SeqResult)
    (ht : tail = processModelsFrom (stepOf gen) sessionId rest r.store
        (history ++ [⟨Role.assistant, some model.id, diagMessage model.id⟩])) :
    r.response = diagMessage model.id
    ∧ diagMessage model.id
        = ("No response was generated from ") ++ model.id ++
            (". This could be due to an issue with the model configuration or the input provided.")
    ∧ r.events
        = (chunks.map (fun c =>
            Event.receiveMessage model.id c false sessionId model.order))
          ++ [Event.receiveMessage model.id (diagMessage model.id) false sessionId model.order,
              Event.receiveMessage model.id ("") true sessionId model.order]
    ∧ r.store = Session.addMessage sessionId
        ⟨Role.assistant, some model.id, diagMessage model.id⟩ store
    ∧ processModelsFrom (stepOf gen) sessionId (model :: rest) store history
        = ⟨r.events ++ Event.modelComplete model.id sessionId model.order :: tail.events,
           tail.store, tail.history, r.calls ++ tail.calls⟩ := by
  have he := processModel_ok_blank gen store sessionId model history chunks
    response hg hb
  have h1 : r.response = diagMessage model.id := by rw [hr, he]
  refine ⟨h1, rfl, ?_, ?_, ?_⟩
  · rw [hr, he]
  · rw [hr, he]
  · exact processModelsFrom_step gen sessionId model rest store history r hr tail
      (by rw [ht, h1])

/-- Concrete instance of `empty_response_diagnostic`. -/
theorem empty_response_diagnostic_witness :
    genAllEmpty cfgDefault.deepseek.modelId [] cfgDefault.deepseek.parameters
        = GenOutcome.ok [] ("") ∧
      jsTrim ("") = ("") ∧
      (processModel genAllEmpty store0 ("s1") mdlDeepseek []).response
        = diagMessage ("deepseek") :=
  ⟨rfl, rfl,
   (empty_response_diagnostic genAllEmpty store0 ("s1") mdlDeepseek [mdlNova]
      [] [] ("") rfl rfl
      (processModel genAllEmpty store0 ("s1") mdlDeepseek []) rfl
      (processModelsFrom (stepOf genAllEmpty) ("s1") [mdlNova]
        (processModel genAllEmpty store0 ("s1") mdlDeepseek []).store
        ([] ++ [⟨Role.assistant, some mdlDeepseek.id, diagMessage mdlDeepseek.id⟩]))
      rfl).1⟩

/-- C6: when the generator returns a text beginning with the reserved
`Error:` marker, the step keeps it unchanged as the assistant content — no
placeholder is substituted and no extra chunk event is emitted — and the
step completes normally with the terminal completion chunk, the sequence
proceeding as usual. -/
theorem error_prefixed_text_kept (gen : Generator) (store : Store)
    (sessionId : String) (model : ModelDesc) (rest : List ModelDesc)
    (history : List Message) (chunks : List String) (response : String)
    (hg : gen model.config.modelId history model.config.parameters
        = GenOutcome.ok chunks response)
    (hp : jsStartsWith response ("Error:") = true)
    (r : StepResult) (hr : r = processModel gen store sessionId model history)
    (tail : SeqResult)
    (ht : tail = processModelsFrom (stepOf gen) sessionId rest r.store
        (history ++ [⟨Role.assistant, some model.id, response⟩])) :
    r.response = response
    ∧ r.events
        = (chunks.map (fun c =>
            Event.receiveMessage model.id c false sessionId model.order))
          ++ [Event.receiveMessage model.id ("") true sessionId model.order]
    ∧ r.store = Session.addMessage sessionId
        ⟨Role.assistant, some model.id, response⟩ store
    ∧ processModelsFrom (stepOf gen) sessionId (model :: rest) store history
        = ⟨r.events ++ Event.modelComplete model.id sessionId model.order :: tail.events,
           tail.store, tail.history, r.calls ++ tail.calls⟩ := by
  have he := processModel_ok_nonblank gen store sessionId model history chunks
    response hg (error_marked_not_blank response hp)
  have h1 : r.response = response := by rw [hr, he]
  refine ⟨h1, ?_, ?_, ?_⟩
  · rw [hr, he]
  · rw [hr, he]
  · exact processModelsFrom_step gen sessionId model rest store history r hr tail
      (by rw [ht, h1])

/-- Concrete instance of `error_prefixed_text_kept`. -/
theorem error_prefixed_text_kept_witness :
    genErrPrefixed cfgDefault.deepseek.modelId [] cfgDefault.deepseek.parameters
        = GenOutcome.ok [("Error: boom")] ("Error: boom") ∧
      jsStartsWith ("Error: boom") ("Error:") = true ∧
      (processModel genErrPrefixed store0 ("s1") mdlDeepseek []).response
        = ("Error: boom") :=
  ⟨rfl, by decide,
   (error_prefixed_text_kept genErrPrefixed store0 ("s1") mdlDeepseek [mdlNova]
      [] [("Error: boom")] ("Error: boom") rfl (by decide)
      (processModel genErrPrefixed store0 ("s1") mdlDeepseek []) rfl
      (processModelsFrom (stepOf genErrPrefixed) ("s1") [mdlNova]
        (processModel genErrPrefixed store0 ("s1") mdlDeepseek []).store
        ([] ++ [⟨Role.assistant, some mdlDeepseek.id, ("Error: boom")⟩]))
      rfl).1⟩


/-- Unfolding of `handleSendMessage` on a valid session. -/
theorem handleSendMessage_valid (gen : Generator) (cfg : Config)
    (store : Store) (message sessionId : String) (msgs : List Message)
    (h : Session.getById sessionId store = some msgs) :
    handleSendMessage gen cfg store message sessionId
      = processModelsFrom (stepOf gen) sessionId (modelsList cfg)
          (Session.addMessage sessionId ⟨Role.user, none, message⟩ store)
          (msgs ++ [⟨Role.user, none, message⟩]) := by
  simp [handleSendMessage, h, processModelsInSequence,
    getHistory_addMessage sessionId ⟨Role.user, none, message⟩ store msgs h]

/-- Every event emitted by the per-model step is a `receive_message` for
that model's id, session, and order. -/
theorem processModel_events_shape (gen : Generator) (store : Store)
    (sid : String) (model : ModelDesc) (history : List Message) :
    ∀ e ∈ (processModel gen store sid model history).events,
      ∃ t c, e = Event.receiveMessage model.id t c sid model.order := by
  intro e he
  cases hg : gen model.config.modelId history model.config.parameters with
  | ok chunks response =>
      by_cases hb : (jsTrim response == "") = true
      · rw [processModel_ok_blank gen store sid model history chunks response hg
            (beq_iff_eq.mp hb)] at he
        simp only [List.mem_append, List.mem_map, List.mem_cons,
          List.not_mem_nil, or_false] at he
        rcases he with ⟨c, _, rfl⟩ | rfl | rfl
        · exact ⟨c, false, rfl⟩
        · exact ⟨diagMessage model.id, false, rfl⟩
        · exact ⟨(""), true, rfl⟩
      · rw [Bool.not_eq_true] at hb
        rw [processModel_ok_nonblank gen store sid model history chunks response
            hg hb] at he
        simp only [List.mem_append, List.mem_map, List.mem_cons,
          List.not_mem_nil, or_false] at he
        rcases he with ⟨c, _, rfl⟩ | rfl
        · exact ⟨c, false, rfl⟩
        · exact ⟨(""), true, rfl⟩
  | err emitted message =>
      rw [processModel_err gen store sid model history emitted message hg] at he
      simp only [List.mem_append, List.mem_map, List.mem_cons,
        List.not_mem_nil, or_false] at he
      rcases he with ⟨c, _, rfl⟩ | rfl | rfl
      · exact ⟨c, false, rfl⟩
      · exact ⟨errorText message, false, rfl⟩
      · exact ⟨(""), true, rfl⟩

/-- The per-model step's event list ends with the terminal completion
chunk. -/
theorem processModel_events_terminal (gen : Generator) (store : Store)
    (sid : String) (model : ModelDesc) (history : List Message) :
    ∃ pre, (processModel gen store sid model history).events
      = pre ++ [Event.receiveMessage model.id ("") true sid model.order] := by
  cases hg : gen model.config.modelId history model.config.parameters with
  | ok chunks response =>
      rw [processModel_ok gen store sid model history chunks response hg]
      refine ⟨(chunks.map (fun c =>
          Event.receiveMessage model.id c false sid model.order))
        ++ (if jsTrim response == "" then
              [Event.receiveMessage model.id (diagMessage model.id) false sid model.order]
            else []), ?_⟩
      simp [List.append_assoc]
  | err emitted message =>
      rw [processModel_err gen store sid model history emitted message hg]
      refine ⟨(emitted.map (fun c =>
          Event.receiveMessage model.id c false sid model.order))
        ++ [Event.receiveMessage model.id (errorText message) false sid model.order], ?_⟩
      simp [List.append_assoc]

/-- Among the step's events, the last `receive_message` carrying the
model's id is the terminal completion chunk. -/
theorem processModel_filter_self_last (gen : Generator) (store : Store)
    (sid : String) (model : ModelDesc) (history : List Message) :
    ((processModel gen store sid model history).events.filter
        (isChunkFor model.id)).getLast?
      = some (Event.receiveMessage model.id ("") true sid model.order) := by
  obtain ⟨pre, hpre⟩ := processModel_events_terminal gen store sid model history
  rw [hpre, List.filter_append]
  have hterm : isChunkFor model.id
      (Event.receiveMessage model.id ("") true sid model.order) = true := by
    simp [isChunkFor]
  simp only [List.filter_cons, hterm, if_true, List.filter_nil]
  exact List.getLast?_concat _

/-- The step emits no `receive_message` for any other model id. -/
theorem processModel_filter_other (gen : Generator) (store : Store)
    (sid : String) (model : ModelDesc) (history : List Message) (x : String)
    (hne : ¬model.id = x) :
    (processModel gen store sid model history).events.filter (isChunkFor x)
      = [] := by
  rw [List.filter_eq_nil_iff]
  intro e he
  obtain ⟨t, c, rfl⟩ := processModel_events_shape gen store sid model history e he
  simp only [isChunkFor]
  simp [hne]


/-- The event stream of a full two-descriptor run, written out. -/
theorem run_events_two (gen : Generator) (sid : String) (m1 m2 : ModelDesc)
    (st : Store) (h0 : List Message) :
    (processModelsFrom (stepOf gen) sid (m1 :: [m2]) st h0).events
      = (processModel gen st sid m1 h0).events
        ++ Event.modelComplete m1.id sid m1.order
          :: ((processModel gen (processModel gen st sid m1 h0).store sid m2
                (h0 ++ [⟨Role.assistant, some m1.id,
                  (processModel gen st sid m1 h0).response⟩])).events
            ++ Event.modelComplete m2.id sid m2.order
              :: [Event.allResponsesComplete sid]) := by
  rw [processModelsFrom_step gen sid _ _ _ _ _ rfl _ rfl]
  rw [processModelsFrom_step gen sid _ _ _ _ _ rfl _ rfl]
  simp [processModelsFrom]

/-- In a run-shaped event list, when the non-chunk events fail the filter
and the second block contributes nothing, the last filtered event is the
last filtered event of the first block. -/
theorem getLast?_filter_fst (A B : List Event) (p : Event → Bool)
    (x y z t : Event) (hx : p x = false) (hy : p y = false)
    (hz : p z = false) (hB : B.filter p = [])
    (hA : (A.filter p).getLast? = some t) :
    ((A ++ x :: (B ++ y :: [z])).filter p).getLast? = some t := by
  rw [List.filter_append, List.filter_cons, hx, List.filter_append, hB,
    List.filter_cons, hy, List.filter_cons, hz, List.filter_nil]
  simp only [Bool.false_eq_true, if_false, List.nil_append, List.append_nil]
  exact hA

/-- Mirror of `getLast?_filter_fst` for the second block. -/
theorem getLast?_filter_snd (A B : List Event) (p : Event → Bool)
    (x y z t : Event) (hx : p x = false) (hy : p y = false)
    (hz : p z = false) (hA : A.filter p = [])
    (hB : (B.filter p).getLast? = some t) :
    ((A ++ x :: (B ++ y :: [z])).filter p).getLast? = some t := by
  rw [List.filter_append, List.filter_cons, hx, List.filter_append, hA,
    List.filter_cons, hy, List.filter_cons, hz, List.filter_nil]
  simp only [Bool.false_eq_true, if_false, List.nil_append, List.append_nil]
  exact hB

/-- C4: for every model of the run, whatever the generator outcome, the
last `receive_message` event carrying that model's id has empty text and
completion flag true — no further `receive_message` for that model follows
it in the run. -/
theorem terminal_chunk_is_last (gen : Generator) (cfg : Config)
    (store : Store) (message sessionId : String) (msgs : List Message)
    (d : ModelDesc) (h : Session.getById sessionId store = some msgs)
    (hd : d ∈ modelsList cfg) :
    ((handleSendMessage gen cfg store message sessionId).events.filter
        (isChunkFor d.id)).getLast?
      = some (Event.receiveMessage d.id ("") true sessionId d.order) := by
  rw [handleSendMessage_valid gen cfg store message sessionId msgs h]
  have hd2 : d = ⟨("deepseek"), cfg.deepseek, 1⟩ ∨ d = ⟨("nova"), cfg.nova, 2⟩ := by
    simpa [modelsList] using hd
  rw [show modelsList cfg
      = ⟨("deepseek"), cfg.deepseek, 1⟩ :: [⟨("nova"), cfg.nova, 2⟩] from rfl]
  rw [run_events_two]
  rcases hd2 with rfl | rfl
  · exact getLast?_filter_fst _ _ _ _ _ _ _ rfl rfl rfl
      (processModel_filter_other gen _ sessionId _ _ _
        (by decide : ¬("nova" : String) = ("deepseek" : String)))
      (processModel_filter_self_last gen _ sessionId _ _)
  · exact getLast?_filter_snd _ _ _ _ _ _ _ rfl rfl rfl
      (processModel_filter_other gen _ sessionId _ _ _
        (by decide : ¬("deepseek" : String) = ("nova" : String)))
      (processModel_filter_self_last gen _ sessionId _ _)

/-- Concrete instance of `terminal_chunk_is_last`. -/
theorem terminal_chunk_is_last_witness :
    Session.getById ("s1") store0 = some [] ∧
      mdlDeepseek ∈ modelsList cfgDefault ∧
      ((handleSendMessage genAllErr cfgDefault store0 ("hi") ("s1")).events.filter
          (isChunkFor mdlDeepseek.id)).getLast?
        = some (Event.receiveMessage mdlDeepseek.id ("") true ("s1") mdlDeepseek.order) :=
  ⟨rfl, by simp [modelsList, mdlDeepseek],
   terminal_chunk_is_last genAllErr cfgDefault store0 ("hi") ("s1") [] mdlDeepseek
     rfl (by simp [modelsList, mdlDeepseek])⟩


/-- C7: the transcript passed to the first generator call is the stored
history plus the inbound user message; the transcript passed to the second
call is exactly that list extended with the first model's assistant
message — nothing from later models — and the transcript length grows
strictly between consecutive steps. -/
theorem transcript_growth (gen : Generator) (cfg : Config) (store : Store)
    (message sessionId : String) (msgs : List Message)
    (h : Session.getById sessionId store = some msgs)
    (store1 : Store)
    (hs1 : store1 = Session.addMessage sessionId ⟨Role.user, none, message⟩ store)
    (h0 : List Message) (hh0 : h0 = msgs ++ [⟨Role.user, none, message⟩])
    (r1 : StepResult)
    (hr1 : r1 = processModel gen store1 sessionId ⟨("deepseek"), cfg.deepseek, 1⟩ h0) :
    (handleSendMessage gen cfg store message sessionId).calls
      = [⟨cfg.deepseek.modelId, h0⟩,
         ⟨cfg.nova.modelId,
          h0 ++ [⟨Role.assistant, some ("deepseek"), r1.response⟩]⟩]
    ∧ ((handleSendMessage gen cfg store message sessionId).calls.map
        (fun c => c.history.length))
      = [h0.length, h0.length + 1] := by
  subst hs1 hh0 hr1
  rw [handleSendMessage_valid gen cfg store message sessionId msgs h]
  constructor
  · simp [modelsList, processModelsFrom, stepOf, processModel_calls]
  · simp [modelsList, processModelsFrom, stepOf, processModel_calls]

/-- Concrete instance of `transcript_growth`. -/
theorem transcript_growth_witness :
    Session.getById ("s1") store0 = some [] ∧
      (handleSendMessage genScenario cfgDefault store0 ("hi") ("s1")).calls
        = [⟨cfgDefault.deepseek.modelId, [⟨Role.user, none, ("hi")⟩]⟩,
           ⟨cfgDefault.nova.modelId,
            [⟨Role.user, none, ("hi")⟩] ++
              [⟨Role.assistant, some ("deepseek"), s1ex.response⟩]⟩] :=
  ⟨rfl,
   (transcript_growth genScenario cfgDefault store0 ("hi") ("s1") [] rfl
      (Session.addMessage ("s1") ⟨Role.user, none, ("hi")⟩ store0) rfl
      ([] ++ [⟨Role.user, none, ("hi")⟩]) rfl
      (processModel genScenario
        (Session.addMessage ("s1") ⟨Role.user, none, ("hi")⟩ store0) ("s1")
        ⟨("deepseek"), cfgDefault.deepseek, 1⟩
        ([] ++ [⟨Role.user, none, ("hi")⟩])) rfl).1⟩


/-- The step's store on a returning generator call: the assistant message
holding the step's resolved response is appended. -/
theorem processModel_store_of_ok (gen : Generator) (store : Store)
    (sid : String) (model : ModelDesc) (history : List Message)
    (chunks : List String) (response : String)
    (hg : gen model.config.modelId history model.config.parameters
        = GenOutcome.ok chunks response) :
    (processModel gen store sid model history).store
      = Session.addMessage sid
          ⟨Role.assistant, some model.id,
           (processModel gen store sid model history).response⟩ store := by
  rw [processModel_ok gen store sid model history chunks response hg]

/-- The step's store on a throwing generator call: unchanged, the
assistant message is never appended to the session store. -/
theorem processModel_store_of_err (gen : Generator) (store : Store)
    (sid : String) (model : ModelDesc) (history : List Message)
    (emitted : List String) (message : Option String)
    (hg : gen model.config.modelId history model.config.parameters
        = GenOutcome.err emitted message) :
    (processModel gen store sid model history).store = store := by
  rw [processModel_err gen store sid model history emitted message hg]

/-- Store lookup across one per-model step: the session transcript gains
the assistant message exactly when the generator call returned. -/
theorem getById_processModel_store (gen : Generator) (store : Store)
    (sid : String) (model : ModelDesc) (history : List Message)
    (l : List Message) (h : Session.getById sid store = some l) :
    Session.getById sid (processModel gen store sid model history).store
      = some (l ++
          (if genSucceeded (gen model.config.modelId history model.config.parameters)
            then [⟨Role.assistant, some model.id,
                   (processModel gen store sid model history).response⟩]
            else [])) := by
  cases hg : gen model.config.modelId history model.config.parameters with
  | ok chunks response =>
      rw [processModel_store_of_ok gen store sid model history chunks response hg,
        getById_addMessage, h]
      simp [genSucceeded]
  | err emitted message =>
      rw [processModel_store_of_err gen store sid model history emitted message hg,
        h]
      simp [genSucceeded]

/-- The whole result record of a two-descriptor run, written out. -/
theorem run_two (gen : Generator) (sid : String) (m1 m2 : ModelDesc)
    (st : Store) (h0 : List Message)
    (r1 : StepResult) (hr1 : r1 = processModel gen st sid m1 h0)
    (a1 : Message) (ha1 : a1 = ⟨Role.assistant, some m1.id, r1.response⟩)
    (r2 : StepResult) (hr2 : r2 = processModel gen r1.store sid m2 (h0 ++ [a1]))
    (a2 : Message) (ha2 : a2 = ⟨Role.assistant, some m2.id, r2.response⟩) :
    processModelsFrom (stepOf gen) sid (m1 :: [m2]) st h0
      = ⟨r1.events ++ Event.modelComplete m1.id sid m1.order
            :: (r2.events ++ Event.modelComplete m2.id sid m2.order
              :: [Event.allResponsesComplete sid]),
         r2.store, h0 ++ [a1] ++ [a2], r1.calls ++ r2.calls⟩ := by
  subst hr1 ha1 hr2 ha2
  rw [processModelsFrom_step gen sid _ _ _ _ _ rfl _ rfl]
  rw [processModelsFrom_step gen sid _ _ _ _ _ rfl _ rfl]
  simp [processModelsFrom]


/-- C1 counterexample: with a generator that throws for both models, the
in-memory working transcript gains both assistant messages but the session
store gains neither — after the send the stored transcript holds only the
user message, not one assistant message per model. -/
theorem store_append_on_failure_cex :
    Session.getHistory ("s1")
        (handleSendMessage genAllErr cfgDefault store0 ("hi") ("s1")).store
      = [⟨Role.user, none, ("hi")⟩]
    ∧ (handleSendMessage genAllErr cfgDefault store0 ("hi") ("s1")).history
      = [⟨Role.user, none, ("hi")⟩,
         ⟨Role.assistant, some ("deepseek"), errorText none⟩,
         ⟨Role.assistant, some ("nova"), errorText none⟩] := by
  constructor
  · decide
  · decide

/-- C1 (amended): after every step the assistant message (with the model's
identifier) is in the in-memory working transcript; it is additionally
appended to the session store exactly when that model's generator call
returned rather than threw. Hence one send appends to the store one user
message plus one assistant message per model whose generator call
returned, in configured order. -/
theorem assistant_message_persistence (gen : Generator) (cfg : Config)
    (store : Store) (message sessionId : String) (msgs : List Message)
    (h : Session.getById sessionId store = some msgs)
    (h0 : List Message) (hh0 : h0 = msgs ++ [⟨Role.user, none, message⟩])
    (r1 : StepResult)
    (hr1 : r1 = processModel gen
        (Session.addMessage sessionId ⟨Role.user, none, message⟩ store)
        sessionId ⟨("deepseek"), cfg.deepseek, 1⟩ h0)
    (a1 : Message) (ha1 : a1 = ⟨Role.assistant, some ("deepseek"), r1.response⟩)
    (r2 : StepResult)
    (hr2 : r2 = processModel gen r1.store sessionId ⟨("nova"), cfg.nova, 2⟩
        (h0 ++ [a1]))
    (a2 : Message) (ha2 : a2 = ⟨Role.assistant, some ("nova"), r2.response⟩) :
    (handleSendMessage gen cfg store message sessionId).history
      = h0 ++ [a1] ++ [a2]
    ∧ Session.getById sessionId
        (handleSendMessage gen cfg store message sessionId).store
      = some ((h0 ++
          (if genSucceeded (gen cfg.deepseek.modelId h0 cfg.deepseek.parameters)
            then [a1] else []))
        ++ (if genSucceeded (gen cfg.nova.modelId (h0 ++ [a1]) cfg.nova.parameters)
            then [a2] else [])) := by
  subst hh0 hr1 ha1 hr2 ha2
  rw [handleSendMessage_valid gen cfg store message sessionId msgs h]
  rw [show modelsList cfg
      = ⟨("deepseek"), cfg.deepseek, 1⟩ :: [⟨("nova"), cfg.nova, 2⟩] from rfl]
  rw [run_two gen sessionId _ _ _ _ _ rfl _ rfl _ rfl _ rfl]
  have hb1 : Session.getById sessionId
      (Session.addMessage sessionId ⟨Role.user, none, message⟩ store)
      = some (msgs ++ [⟨Role.user, none, message⟩]) := by
    rw [getById_addMessage, h]
    rfl
  exact ⟨rfl,
    getById_processModel_store gen _ sessionId _ _ _
      (getById_processModel_store gen _ sessionId _ _ _ hb1)⟩

/-- Concrete instance of `assistant_message_persistence`. -/
theorem assistant_message_persistence_witness :
    Session.getById ("s1") store0 = some [] ∧
      (handleSendMessage genAllErr cfgDefault store0 ("hi") ("s1")).history
        = [⟨Role.user, none, ("hi")⟩]
            ++ [⟨Role.assistant, some ("deepseek"), f1ex.response⟩]
            ++ [⟨Role.assistant, some ("nova"), f2ex.response⟩] :=
  by
  refine ⟨rfl, ?_⟩
  have hx := assistant_message_persistence genAllErr cfgDefault store0 ("hi")
    ("s1") [] rfl ([] ++ [⟨Role.user, none, ("hi")⟩]) rfl _ rfl _ rfl _ rfl _ rfl
  exact hx.1


/-- C8: on a valid session the outbound events are strictly ordered per
model — all of model 1's chunk events, then its `model_complete`, then all
of model 2's chunk events, its `model_complete`, and finally exactly one
`all_responses_complete` with the session id — and in the concrete
two-model scenario (A answers "hello", B answers "hi, " plus the last
assistant content) the run yields exactly the expected event list and the
final transcript [user hi, assistant(A) hello, assistant(B) hi, hello] in
both the working history and the store. -/
theorem sequence_event_order :
    (∀ (gen : Generator) (cfg : Config) (store : Store) (msgs : List Message)
        (message sessionId : String),
      Session.getById sessionId store = some msgs →
      ∀ r1 r2 : StepResult,
        r1 = processModel gen
            (Session.addMessage sessionId ⟨Role.user, none, message⟩ store)
            sessionId ⟨("deepseek"), cfg.deepseek, 1⟩
            (msgs ++ [⟨Role.user, none, message⟩]) →
        r2 = processModel gen r1.store sessionId ⟨("nova"), cfg.nova, 2⟩
            (msgs ++ [⟨Role.user, none, message⟩]
              ++ [⟨Role.assistant, some ("deepseek"), r1.response⟩]) →
        (handleSendMessage gen cfg store message sessionId).events
          = r1.events ++ Event.modelComplete ("deepseek") sessionId 1
              :: (r2.events ++ Event.modelComplete ("nova") sessionId 2
                :: [Event.allResponsesComplete sessionId])
        ∧ (∀ e ∈ r1.events,
            ∃ t c, e = Event.receiveMessage ("deepseek") t c sessionId 1)
        ∧ (∀ e ∈ r2.events,
            ∃ t c, e = Event.receiveMessage ("nova") t c sessionId 2))
    ∧ (handleSendMessage genScenario cfgDefault store0 ("hi") ("s1")).events
        = [Event.receiveMessage ("deepseek") ("hello") false ("s1") 1,
           Event.receiveMessage ("deepseek") ("") true ("s1") 1,
           Event.modelComplete ("deepseek") ("s1") 1,
           Event.receiveMessage ("nova") ("hi, hello") false ("s1") 2,
           Event.receiveMessage ("nova") ("") true ("s1") 2,
           Event.modelComplete ("nova") ("s1") 2,
           Event.allResponsesComplete ("s1")]
    ∧ (handleSendMessage genScenario cfgDefault store0 ("hi") ("s1")).history
        = [⟨Role.user, none, ("hi")⟩,
           ⟨Role.assistant, some ("deepseek"), ("hello")⟩,
           ⟨Role.assistant, some ("nova"), ("hi, hello")⟩]
    ∧ Session.getHistory ("s1")
        (handleSendMessage genScenario cfgDefault store0 ("hi") ("s1")).store
      = [⟨Role.user, none, ("hi")⟩,
         ⟨Role.assistant, some ("deepseek"), ("hello")⟩,
         ⟨Role.assistant, some ("nova"), ("hi, hello")⟩] := by
  refine ⟨?_, ?_, ?_, ?_⟩
  · intro gen cfg store msgs message sessionId h r1 r2 hr1 hr2
    subst hr1 hr2
    rw [handleSendMessage_valid gen cfg store message sessionId msgs h]
    rw [show modelsList cfg
        = ⟨("deepseek"), cfg.deepseek, 1⟩ :: [⟨("nova"), cfg.nova, 2⟩] from rfl]
    refine ⟨?_, ?_, ?_⟩
    · exact run_events_two gen sessionId _ _ _ _
    · exact processModel_events_shape gen _ sessionId _ _
    · exact processModel_events_shape gen _ sessionId _ _
  · decide
  · decide
  · decide

/-- Concrete instance of `sequence_event_order`. -/
theorem sequence_event_order_witness :
    Session.getById ("s1") store0 = some [] ∧
      (handleSendMessage genScenario cfgDefault store0 ("hi") ("s1")).events
        = s1ex.events ++ Event.modelComplete ("deepseek") ("s1") 1
            :: (s2ex.events ++ Event.modelComplete ("nova") ("s1") 2
              :: [Event.allResponsesComplete ("s1")]) := by
  refine ⟨rfl, ?_⟩
  have hx := sequence_event_order.1 genScenario cfgDefault store0 [] ("hi")
    ("s1") rfl _ _ rfl rfl
  exact hx.1

end QCliBotgroup
